import Mathlib

/-!
# try-stripe-checkout: the four HTTP handlers of `main.go`

A shallow embedding of `checkout`, `paymentIntent`, `success` and `webhook`.

A handler run is recorded as the ordered list of calls it makes into the Go
standard library and the Stripe SDK (with their arguments), together with the
way the run ended.  The results those calls return are inputs of the model
(`Lib`): the handlers are glue code and every branch they take is decided by
such a result.  The one library routine modelled in detail is the bounded
body read `io.ReadAll(http.MaxBytesReader(w, r.Body, 65536))`, because the
size limit of the webhook is decided there.
-/

namespace StripeCheckout

/-! ## Data model -/

abbrev Bytes := List UInt8

/-- The serving address, `const addr = "localhost:4242"`. -/
def addr : String := "localhost:4242"

/-- Modelled from the spec: `stripe.EventTypePaymentIntentSucceeded`, a constant of
the SDK; the spec gives the tag "payment_intent.succeeded". -/
def EventTypePaymentIntentSucceeded : String := "payment_intent.succeeded"

/-- Modelled from the spec: `stripe.EventTypeRefundCreated`, a constant of the SDK;
the spec gives the tag "refund.created". -/
def EventTypeRefundCreated : String := "refund.created"

/-- Modelled from the spec: `stripe.CheckoutSessionModePayment`, a constant of the
SDK; its value is "payment". -/
def CheckoutSessionModePayment : String := "payment"

/-- Status codes of `net/http` that the handlers use. -/
def StatusOK : Nat := 200

def StatusSeeOther : Nat := 303

def StatusBadRequest : Nat := 400

def StatusInternalServerError : Nat := 500

def StatusServiceUnavailable : Nat := 503

/-- Modelled from the spec: `stripe.EventData`, of which the program reads only
`Raw`, the undecoded bytes of the nested object. -/
structure EventData where
  Raw : Bytes
deriving DecidableEq, Repr

/-- Modelled from the spec: `stripe.Event`, the envelope `{type, raw_payload}`.
`Data` is a pointer (`*EventData`): `none` is Go's `nil`, which is what the
decoder leaves when the JSON has no "data" member or it is null. -/
structure Event where
  Type_ : String
  Data : Option EventData
deriving DecidableEq, Repr

/-- Modelled from the spec: `stripe.PaymentIntent`, opaque to this program apart
from its identifier. -/
structure PaymentIntent where
  ID : String
deriving DecidableEq, Repr

/-- Modelled from the spec: `stripe.Refund`, opaque to this program. -/
structure Refund where
  ID : String
deriving DecidableEq, Repr

/-- Modelled from the spec: `stripe.CheckoutSession`, "containing at minimum a
redirect URL and a session identifier". -/
structure CheckoutSession where
  ID : String
  URL : String
deriving DecidableEq, Repr

/-- The fields of `stripe.CheckoutSessionLineItemParams` that `checkout` sets;
`stripe.String(x)` and `stripe.Int64(x)` are pointers to `x`, here `some x`. -/
structure CheckoutSessionLineItemParams where
  Price : Option String
  Quantity : Option Int
deriving DecidableEq, Repr

/-- The field of `stripe.CheckoutSessionPaymentIntentDataParams` that `checkout` sets. -/
structure CheckoutSessionPaymentIntentDataParams where
  Metadata : List (String × String)
deriving DecidableEq, Repr

/-- The fields of `stripe.CheckoutSessionParams` that `checkout` sets. -/
structure CheckoutSessionParams where
  LineItems : List CheckoutSessionLineItemParams
  Mode : Option String
  SuccessURL : Option String
  CancelURL : Option String
  Metadata : List (String × String)
  PaymentIntentData : Option CheckoutSessionPaymentIntentDataParams
  ClientReferenceID : Option String
deriving DecidableEq, Repr

/-! ## The request body and the bounded read

`webhook` reads its body with `io.ReadAll(http.MaxBytesReader(w, r.Body, 65536))`
(lines 108-109).  Both routines belong to the Go standard library and are not
part of the repository; the spec says of them that the read fails for a body
above the maximum and succeeds for a body of exactly the maximum.  The
definitions below follow the library routines step by step. -/

/-- Modelled from the spec: the errors a body read can report, `io.EOF` and
`*http.MaxBytesError` (the spec's `TransportError` for a body over the bound). -/
inductive ReadErr where
  | EOF
  | MaxBytesError (Limit : Nat)
deriving DecidableEq, Repr

/-- Modelled from the spec: the request body as an `io.Reader`, the "raw byte
payload" of the spec, as the bytes not yet handed over.  With
`k` bytes left the transport hands over at most `chunk k + 1` bytes in one
`Read` (so every schedule of short reads is covered), and it reports `io.EOF`
either together with the last bytes (`eagerEOF`) or on the following call; the
body is assumed to arrive whole (no connection failure). -/
structure Body where
  data : Bytes
  chunk : Nat → Nat
  eagerEOF : Bool

/-- Modelled from the spec: the call `Read(p)` on the request body with
`len(p) = plen`, giving the bytes copied into `p`, the error, and the reader
afterwards. -/
def Body.Read (b : Body) (plen : Nat) : Bytes × Option ReadErr × Body :=
  if b.data.length = 0 then ([], some ReadErr.EOF, b)
  else
    let m := min plen (b.chunk b.data.length + 1)
    let rest := b.data.drop m
    (b.data.take m,
     if b.eagerEOF && decide (rest.length = 0) then some ReadErr.EOF else none,
     { b with data := rest })

/-- Modelled from the spec: the state of the size-bounded reader
`http.maxBytesReader`, with `r` the wrapped body, `i` the limit, `n` the bytes
still allowed and `err` the sticky error. -/
structure MaxBytesReader where
  r : Body
  i : Nat
  n : Nat
  err : Option ReadErr

/-- Modelled from the spec: the constructor `http.MaxBytesReader(w, r, n)` of the
size-bounded reader, for `n ≥ 0`. -/
def MaxBytesReader.new (r : Body) (n : Nat) : MaxBytesReader :=
  { r := r, i := n, n := n, err := none }

/-- Modelled from the spec: the method `(*maxBytesReader).Read(p)` of the
size-bounded reader, with `len(p) = plen`, which fails the read above the
maximum rather than buffering unbounded data.  A sticky error is returned again; `p` is cut to `l.n + 1` bytes, which is enough to tell whether
the body goes past the limit; a read of at most `l.n` bytes is passed on, a
longer one is cut to `l.n` bytes and reported as `*MaxBytesError`. -/
def MaxBytesReader.Read (l : MaxBytesReader) (plen : Nat) :
    Bytes × Option ReadErr × MaxBytesReader :=
  match l.err with
  | some e => ([], some e, l)
  | none =>
    if plen = 0 then ([], none, l)
    else
      let plen := if plen - 1 > l.n then l.n + 1 else plen
      match l.r.Read plen with
      | (p, err, r) =>
        if p.length ≤ l.n then
          (p, err, { l with r := r, n := l.n - p.length, err := err })
        else
          (p.take l.n, some (ReadErr.MaxBytesError l.i),
           { l with r := r, n := 0, err := some (ReadErr.MaxBytesError l.i) })

/-- Modelled from the spec: the loop of `io.ReadAll`, the read of the whole
body; `b` is the buffer read so far and `cap` its capacity.  Each round reads into the free space `b[len(b):cap(b)]`; `io.EOF`
ends the read without error, any other error ends it with that error; a full
buffer is grown by `append`, whose new capacity `cap + grow cap + 1` is chosen by
the Go runtime.  `none` stands for a loop that has not ended within `fuel`
rounds. -/
def readAllLoop (grow : Nat → Nat) :
    Nat → MaxBytesReader → Bytes → Nat → Option (Bytes × Option ReadErr)
  | 0, _, _, _ => none
  | fuel + 1, r, b, cap =>
    match r.Read (cap - b.length) with
    | (p, err, r) =>
      let b := b ++ p
      match err with
      | some ReadErr.EOF => some (b, none)
      | some e => some (b, some e)
      | none =>
        readAllLoop grow fuel r b (if b.length = cap then cap + grow cap + 1 else cap)

/-- Modelled from the spec: the call `io.ReadAll(r)`, the read of the whole
body; the buffer starts empty with capacity 512.  Every
round that does not end the loop takes at least one byte from the body, so
`len(body) + 1` rounds are enough (`ReadAll_MaxBytesReader`). -/
def ReadAll (grow : Nat → Nat) (r : MaxBytesReader) : Option (Bytes × Option ReadErr) :=
  readAllLoop grow (r.r.data.length + 1) r [] 512

/-- Modelled from the spec: the text of a read error (`err.Error()`), as the
logger receives it. -/
def ReadErr.Error : ReadErr → String
  | ReadErr.EOF => "EOF"
  | ReadErr.MaxBytesError _ => "http: request body too large"

/-! ## Requests, library results and handler runs -/

/-- The parts of `*http.Request` the handlers read: the path wildcards matched
by the route, the parsed query string and the body. -/
structure Request where
  PathValues : List (String × String)
  Query : List (String × String)
  Body : Body

/-- The method `r.PathValue(name)`: the value of the wildcard, "" when there is none. -/
def Request.PathValue (r : Request) (name : String) : String :=
  (r.PathValues.lookup name).getD ""

/-- The call `r.URL.Query().Get(key)`: the first value of the key, "" when there is none. -/
def Request.QueryGet (r : Request) (key : String) : String :=
  (r.Query.lookup key).getD ""

/-- What the Go runtime, the standard library and the Stripe SDK answer to the
calls of the handlers.  A Go result `(v, err)` with a pointer `v` is a pair of
options (`none` is `nil`); where the handler looks at `v` only when `err` is
`nil`, the result is an `Except` of the error text. -/
structure Lib where
  /-- The environment, `os.Getenv`. -/
  Getenv : String → String
  /-- The provider call `session.New(params)`.  The SDK returns the session it
  allocated together with the error, so the pointer is not nil on failure. -/
  sessionNew : CheckoutSessionParams → Option CheckoutSession × Option String
  /-- The provider call `session.Get(id, nil)`. -/
  sessionGet : String → Option CheckoutSession × Option String
  /-- The provider call `paymentintent.Get(id, nil)`. -/
  paymentintentGet : String → Option PaymentIntent × Option String
  /-- The call `json.MarshalIndent(s, "", "  ")` on a checkout session. -/
  MarshalIndent : Option CheckoutSession → Except String String
  /-- The call `json.Unmarshal(payload, &event)`. -/
  UnmarshalEvent : Bytes → Except String Event
  /-- The call `json.Unmarshal(raw, &paymentIntent)`. -/
  UnmarshalPaymentIntent : Bytes → Except String PaymentIntent
  /-- The call `json.Unmarshal(raw, &refund)`. -/
  UnmarshalRefund : Bytes → Except String Refund
  /-- The growth of a full buffer in `io.ReadAll` (see `readAllLoop`). -/
  grow : Nat → Nat

/-- The value handed to `json.NewEncoder(w).Encode`: a session or a payment
intent, both pointers. -/
inductive Encoded where
  | session (s : Option CheckoutSession)
  | paymentIntent (p : Option PaymentIntent)
deriving DecidableEq, Repr

/-- The calls a handler makes that are visible outside it: provider calls,
logging, JSON coding and writes to the `http.ResponseWriter`, each with its
arguments.  `typeHandler` is the call of a per-type event handler such as
`handlePaymentIntentSucceeded(paymentIntent)`. -/
inductive Call where
  | sessionNew (params : CheckoutSessionParams)
  | sessionGet (id : String)
  | paymentintentGet (id : String)
  | logPrintf (text : String)
  | slogError (msg : String) (err : String)
  | slogWarn (msg : String) (key : String) (value : String)
  | slogInfo (msg : String) (key : String) (value : String)
  | MarshalIndent (v : Option CheckoutSession)
  | UnmarshalEvent (data : Bytes)
  | UnmarshalPaymentIntent (data : Bytes)
  | UnmarshalRefund (data : Bytes)
  | typeHandler (tag : String)
  | HeaderSet (key : String) (value : String)
  | WriteHeader (statusCode : Nat)
  | Error (error : String) (code : Nat)
  | Redirect (url : String) (code : Nat)
  | Fprintf (text : String)
  | Encode (v : Encoded)
deriving DecidableEq, Repr

/-- The way a handler run ends: it returns, it panics (a nil pointer is
dereferenced), or it is still reading the body when the fuel of `ReadAll` is
used up. -/
inductive Exit where
  | returned
  | panicked
  | diverged
deriving DecidableEq, Repr

/-- A handler run: the calls in order and the way it ended. -/
structure Run where
  calls : List Call
  exit : Exit
deriving DecidableEq, Repr

/-- The statement `return`, or the end of the function body. -/
def Run.ret : Run := { calls := [], exit := Exit.returned }

/-- A nil pointer dereference: the run stops here. -/
def Run.panic : Run := { calls := [], exit := Exit.panicked }

/-- One call followed by the rest of the run. -/
def call (c : Call) (rest : Run) : Run := { rest with calls := c :: rest.calls }

/-- The status a call commits when it is the first write to the response:
`WriteHeader`, `http.Error` and `http.Redirect` commit their code, a body write
(`fmt.Fprintf`, `Encode`) commits an implicit 200. -/
def Call.status : Call → Option Nat
  | Call.WriteHeader c => some c
  | Call.Error _ c => some c
  | Call.Redirect _ c => some c
  | Call.Fprintf _ => some StatusOK
  | Call.Encode _ => some StatusOK
  | _ => none

/-- The status of the response: the one committed by the first write; a run
that returns without any write gets the implicit 200 of `net/http`; a run that
ends otherwise without a write sends no status. -/
def Run.status (r : Run) : Option Nat :=
  match r.calls.findSome? Call.status with
  | some c => some c
  | none => if r.exit = Exit.returned then some StatusOK else none

/-- Whether a call writes to the `http.ResponseWriter`. -/
def Call.isWrite : Call → Bool
  | Call.HeaderSet _ _ => true
  | Call.WriteHeader _ => true
  | Call.Error _ _ => true
  | Call.Redirect _ _ => true
  | Call.Fprintf _ => true
  | Call.Encode _ => true
  | _ => false

/-- The response as the handler produces it: its writes to the
`http.ResponseWriter`, in order. -/
def Run.response (r : Run) : List Call := r.calls.filter Call.isWrite

/-- Whether a call decodes an event payload into its type-specific shape. -/
def Call.isPayloadDecode : Call → Bool
  | Call.UnmarshalPaymentIntent _ => true
  | Call.UnmarshalRefund _ => true
  | _ => false

/-- Whether a call decodes anything (envelope or payload). -/
def Call.isDecode : Call → Bool
  | Call.UnmarshalEvent _ => true
  | c => c.isPayloadDecode

/-- Whether a call invokes a per-type event handler. -/
def Call.isTypeHandler : Call → Bool
  | Call.typeHandler _ => true
  | _ => false

/-- How many times the run invokes the handler of the tag. -/
def Run.handlerCalls (r : Run) (tag : String) : Nat :=
  r.calls.count (Call.typeHandler tag)

/-! ## The handlers -/

/-- The parameters `checkout` builds (lines 38-58): one line item with the
price of the environment and quantity 1, mode payment, the two URLs on the
serving address, the metadata of the session and of the payment intent, and
the client reference. -/
def checkoutParams (lib : Lib) : CheckoutSessionParams :=
  let domain := "http://" ++ addr
  { LineItems := [{ Price := some (lib.Getenv "PRICE_ID"), Quantity := some 1 }],
    Mode := some CheckoutSessionModePayment,
    SuccessURL := some (domain ++ "/success?session_id={CHECKOUT_SESSION_ID}"),
    CancelURL := some (domain ++ "/cancel"),
    Metadata := [("some_unique_id", "some_unique_value")],
    PaymentIntentData := some { Metadata := [("some_unique_id", "some_unique_value")] },
    ClientReferenceID := some "MY-CUSTOMER-ID" }

/-- The handler `checkout` (lines 35-74).  An error of `session.New` is logged
and the run goes on; an error of `json.MarshalIndent` is answered with 500;
the redirect reads `s.URL`, which panics on a nil `s`. -/
def checkout (lib : Lib) (_r : Request) : Run :=
  let params := checkoutParams lib
  call (Call.sessionNew params) <|
  match lib.sessionNew params with
  | (s, err) =>
    (match err with
     | some e => call (Call.logPrintf ("session.New: " ++ e))
     | none => id) <|
    call (Call.MarshalIndent s) <|
    match lib.MarshalIndent s with
    | Except.error _ =>
      call (Call.Error "error marshalling JSON" StatusInternalServerError) <|
      Run.ret
    | Except.ok b =>
      call (Call.slogInfo "checkout session" "session" b) <|
      match s with
      | none => Run.panic
      | some s =>
        call (Call.Redirect s.URL StatusSeeOther) <|
        Run.ret

/-- The handler `paymentIntent` (lines 76-88). -/
def paymentIntent (lib : Lib) (r : Request) : Run :=
  let id := r.PathValue "id"
  call (Call.paymentintentGet id) <|
  match lib.paymentintentGet id with
  | (_, some err) =>
    call (Call.slogError "paymentintent.Get" err) <|
    call (Call.Error "error retrieving payment intent" StatusInternalServerError) <|
    Run.ret
  | (paymentIntent, none) =>
    call (Call.HeaderSet "Content-Type" "application/json") <|
    call (Call.Encode (Encoded.paymentIntent paymentIntent)) <|
    Run.ret

/-- The handler `success` (lines 90-105).  On an error of `session.Get` it
writes the message with the error text and returns, without `WriteHeader`. -/
def success (lib : Lib) (r : Request) : Run :=
  let sessionID := r.QueryGet "session_id"
  call (Call.sessionGet sessionID) <|
  match lib.sessionGet sessionID with
  | (_, some err) =>
    call (Call.slogError "session.Get" err) <|
    call (Call.Fprintf ("Error retrieving session information: " ++ err)) <|
    Run.ret
  | (session, none) =>
    call (Call.HeaderSet "Content-Type" "application/json") <|
    call (Call.Encode (Encoded.session session)) <|
    Run.ret

/-- The handler `webhook` (lines 107-154): bounded read of the body, decode of
the envelope, switch on `event.Type` with the decode of `event.Data.Raw` into
the shape of the tag, and the acknowledgment.  `event.Data` is a pointer, so
`event.Data.Raw` panics when it is nil.  The call of a per-type handler is a
comment in the source (lines 137-138), so the run makes none. -/
def webhook (lib : Lib) (r : Request) : Run :=
  match ReadAll lib.grow (MaxBytesReader.new r.Body 65536) with
  | none => { calls := [], exit := Exit.diverged }
  | some (_, some err) =>
    call (Call.slogError "error reading request body" err.Error) <|
    call (Call.WriteHeader StatusServiceUnavailable) <|
    Run.ret
  | some (payload, none) =>
    call (Call.UnmarshalEvent payload) <|
    match lib.UnmarshalEvent payload with
    | Except.error err =>
      call (Call.slogError "error unmarshaling event" err) <|
      call (Call.WriteHeader StatusBadRequest) <|
      Run.ret
    | Except.ok event =>
      let ack := call (Call.WriteHeader StatusOK) Run.ret
      if event.Type_ = EventTypePaymentIntentSucceeded then
        match event.Data with
        | none => Run.panic
        | some data =>
          call (Call.UnmarshalPaymentIntent data.Raw) <|
          match lib.UnmarshalPaymentIntent data.Raw with
          | Except.error err =>
            call (Call.slogError "error unmarshaling event data" err) <|
            call (Call.WriteHeader StatusBadRequest) <|
            Run.ret
          | Except.ok _ => ack
      else if event.Type_ = EventTypeRefundCreated then
        match event.Data with
        | none => Run.panic
        | some data =>
          call (Call.UnmarshalRefund data.Raw) <|
          match lib.UnmarshalRefund data.Raw with
          | Except.error err =>
            call (Call.slogError "error unmarshaling event data" err) <|
            call (Call.WriteHeader StatusBadRequest) <|
            Run.ret
          | Except.ok _ => ack
      else
        call (Call.slogWarn "Unhandled event type" "event_type" event.Type_) <|
        ack

/-! ## Sample inputs -/

/-- The bytes of an ASCII text. -/
def bytesOf (s : String) : Bytes := s.toList.map (fun c => c.toNat.toUInt8)

/-- A request with the given body and nothing else. -/
def post (body : String) : Request :=
  { PathValues := [], Query := [], Body := { data := bytesOf body, chunk := fun _ => 4095, eagerEOF := true } }

/-- An event without a "data" member. -/
def bodyNoData : String := "\x7b\"type\":\"payment_intent.succeeded\"\x7d"

/-- A succeeded payment intent. -/
def bodyPaymentIntent : String :=
  "\x7b\"type\":\"payment_intent.succeeded\",\"data\":\x7b\"object\":\x7b\"id\":\"pi_1\"\x7d\x7d\x7d"

/-- A created refund. -/
def bodyRefund : String :=
  "\x7b\"type\":\"refund.created\",\"data\":\x7b\"object\":\x7b\"id\":\"re_1\"\x7d\x7d\x7d"

/-- A succeeded payment intent whose object has a number where the shape
wants a string. -/
def bodyBadPayload : String :=
  "\x7b\"type\":\"payment_intent.succeeded\",\"data\":\x7b\"object\":\x7b\"id\":5\x7d\x7d\x7d"

/-- An event of a type outside the recognized set. -/
def bodyUnknown : String :=
  "\x7b\"type\":\"some.unknown.type\",\"data\":\x7b\"object\":\x7b\x7d\x7d\x7d"

/-- A library for the sample inputs: the JSON decoders answer the sample bodies
as `encoding/json` does and reject everything else; the provider knows the
session `cs_1` and the payment intent `pi_1`. -/
def sampleLib : Lib :=
  { Getenv := fun k => if k = "PRICE_ID" then "price_1" else "",
    sessionNew := fun _ => (some { ID := "cs_1", URL := "https://checkout.stripe.com/c/pay/cs_1" }, none),
    sessionGet := fun id =>
      if id = "cs_1" then (some { ID := "cs_1", URL := "https://checkout.stripe.com/c/pay/cs_1" }, none)
      else (some { ID := "", URL := "" }, some ("No such checkout.session: " ++ id)),
    paymentintentGet := fun id =>
      if id = "pi_1" then (some { ID := "pi_1" }, none)
      else (some { ID := "" }, some ("No such payment_intent: " ++ id)),
    MarshalIndent := fun s =>
      match s with
      | none => Except.ok "null"
      | some s => Except.ok ("\x7b\"id\": \"" ++ s.ID ++ "\", \"url\": \"" ++ s.URL ++ "\"\x7d"),
    UnmarshalEvent := fun data =>
      if data = bytesOf bodyNoData then
        Except.ok { Type_ := "payment_intent.succeeded", Data := none }
      else if data = bytesOf bodyPaymentIntent then
        Except.ok { Type_ := "payment_intent.succeeded",
                    Data := some { Raw := bytesOf "\x7b\"id\":\"pi_1\"\x7d" } }
      else if data = bytesOf bodyRefund then
        Except.ok { Type_ := "refund.created",
                    Data := some { Raw := bytesOf "\x7b\"id\":\"re_1\"\x7d" } }
      else if data = bytesOf bodyBadPayload then
        Except.ok { Type_ := "payment_intent.succeeded",
                    Data := some { Raw := bytesOf "\x7b\"id\":5\x7d" } }
      else if data = bytesOf bodyUnknown then
        Except.ok { Type_ := "some.unknown.type", Data := some { Raw := bytesOf "\x7b\x7d" } }
      else Except.error "invalid character",
    UnmarshalPaymentIntent := fun raw =>
      if raw = bytesOf "\x7b\"id\":\"pi_1\"\x7d" then Except.ok { ID := "pi_1" }
      else Except.error "json: cannot unmarshal into Go value of type stripe.PaymentIntent",
    UnmarshalRefund := fun raw =>
      if raw = bytesOf "\x7b\"id\":\"re_1\"\x7d" then Except.ok { ID := "re_1" }
      else Except.error "json: cannot unmarshal into Go value of type stripe.Refund",
    grow := fun cap => cap }

/-- A request to /success with the session id in the query string. -/
def getSuccess (id : String) : Request :=
  { PathValues := [], Query := [("session_id", id)],
    Body := { data := [], chunk := fun _ => 4095, eagerEOF := true } }

/-- A request to /payment_intent/{id}. -/
def getPaymentIntent (id : String) : Request :=
  { PathValues := [("id", id)], Query := [],
    Body := { data := [], chunk := fun _ => 4095, eagerEOF := true } }

/-- The sample library with a provider whose session lookup fails with the
given error text. -/
def sessionGetFails (text : String) : Lib :=
  { sampleLib with sessionGet := fun _ => (some { ID := "", URL := "" }, some text) }

/-- The sample library with a provider whose session creation fails: as the
SDK does, it returns the session it allocated, still empty, with the error. -/
def sessionNewFailsEmpty : Lib :=
  { sampleLib with
      sessionNew := fun _ => (some { ID := "", URL := "" }, some "Invalid API Key provided") }

/-- The sample library with a JSON encoder that rejects every session. -/
def marshalFails : Lib :=
  { sampleLib with MarshalIndent := fun _ => Except.error "json: unsupported value" }

/-! ## The bounded read -/

/-- One read through the limiter from a body that still has bytes: it takes
`m` bytes with `1 ≤ m ≤ min (len p) (n + 1)`, and either passes them on or cuts
them to `n` bytes with a `MaxBytesError`. -/
theorem MaxBytesReader.Read_pass (l : MaxBytesReader) (plen : Nat) (herr : l.err = none)
    (hp : 0 < plen) (hd : l.r.data ≠ []) :
    ∃ m, 0 < m ∧ m ≤ plen ∧ m ≤ l.n + 1 ∧
      l.Read plen =
        if (l.r.data.take m).length ≤ l.n then
          (l.r.data.take m,
            (if l.r.eagerEOF && decide ((l.r.data.drop m).length = 0) then some ReadErr.EOF else none),
            { l with r := { l.r with data := l.r.data.drop m }, n := l.n - (l.r.data.take m).length,
                     err := (if l.r.eagerEOF && decide ((l.r.data.drop m).length = 0) then some ReadErr.EOF else none) })
        else
          ((l.r.data.take m).take l.n, some (ReadErr.MaxBytesError l.i),
            { l with r := { l.r with data := l.r.data.drop m }, n := 0,
                     err := some (ReadErr.MaxBytesError l.i) }) := by
  refine ⟨min (if plen - 1 > l.n then l.n + 1 else plen) (l.r.chunk l.r.data.length + 1), ?_, ?_, ?_, ?_⟩
  · split_ifs <;> omega
  · split_ifs <;> omega
  · split_ifs <;> omega
  · have hlen : l.r.data.length ≠ 0 := by
      intro h; exact hd (List.length_eq_zero.mp h)
    have hp0 : plen ≠ 0 := by omega
    simp only [MaxBytesReader.Read, herr, Body.Read, hlen, hp0, if_false]
    

/-- The read loop from a limiter without error, with free space in the buffer
and more fuel than bytes left: it ends, with the whole body when the body fits
the allowance and with the first `n` bytes and a `MaxBytesError` otherwise. -/
theorem readAllLoop_spec (grow : Nat → Nat) :
    ∀ (fuel : Nat) (l : MaxBytesReader) (b : Bytes) (cap : Nat),
      l.err = none → b.length < cap → l.r.data.length < fuel →
      readAllLoop grow fuel l b cap =
        some (if l.r.data.length ≤ l.n then (b ++ l.r.data, none)
              else (b ++ l.r.data.take l.n, some (ReadErr.MaxBytesError l.i))) := by
  intro fuel
  induction fuel with
  | zero => intro l b cap _ _ h; omega
  | succ fuel ih =>
    intro l b cap herr hcap hfuel
    by_cases hd : l.r.data = []
    · have h1 : l.Read (cap - b.length) = ([], some ReadErr.EOF, { l with err := some ReadErr.EOF }) := by
        have hp0 : cap - b.length ≠ 0 := by omega
        simp [MaxBytesReader.Read, herr, Body.Read, hd, hp0]
      simp [readAllLoop, h1, hd]
    · obtain ⟨m, hm0, hmp, hmn, hread⟩ :=
        MaxBytesReader.Read_pass l (cap - b.length) herr (by omega) hd
      have htl : (l.r.data.take m).length = min m l.r.data.length := List.length_take _ _
      have hdl : (l.r.data.drop m).length = l.r.data.length - m := List.length_drop _ _
      have hpos : 0 < l.r.data.length := List.length_pos.mpr hd
      by_cases hle : (l.r.data.take m).length ≤ l.n
      · rw [if_pos hle] at hread
        by_cases heof : (l.r.eagerEOF && decide ((l.r.data.drop m).length = 0)) = true
        · simp only [heof, if_true] at hread
          have hrest : (l.r.data.drop m).length = 0 := by
            simp only [Bool.and_eq_true, decide_eq_true_eq] at heof
            exact heof.2
          have hall : l.r.data.take m = l.r.data := List.take_of_length_le (by omega)
          have hle2 : l.r.data.length ≤ l.n := by rw [hall] at hle; exact hle
          simp [readAllLoop, hread, hall, hle2]
        · simp only [heof, Bool.false_eq_true, if_false] at hread
          have hstep : readAllLoop grow (fuel + 1) l b cap =
              readAllLoop grow fuel
                { l with r := { l.r with data := l.r.data.drop m },
                         n := l.n - (l.r.data.take m).length, err := none }
                (b ++ l.r.data.take m)
                (if (b ++ l.r.data.take m).length = cap then cap + grow cap + 1 else cap) := by
            simp only [readAllLoop, hread]
          rw [hstep, ih _ _ _ rfl]
          · simp only
            have hsplit : l.r.data.take m ++ l.r.data.drop m = l.r.data := List.take_append_drop _ _
            by_cases hle2 : l.r.data.length ≤ l.n
            · have h3 : (l.r.data.drop m).length ≤ l.n - (l.r.data.take m).length := by omega
              rw [if_pos h3, if_pos hle2, List.append_assoc, hsplit]
            · have h3 : ¬ (l.r.data.drop m).length ≤ l.n - (l.r.data.take m).length := by omega
              have hm : (l.r.data.take m).length = m := by omega
              have h4 : l.r.data.take m ++ (l.r.data.drop m).take (l.n - (l.r.data.take m).length)
                  = l.r.data.take l.n := by
                rw [hm]
                have : l.n = m + (l.n - m) := by omega
                conv_rhs => rw [this, List.take_add]
              rw [if_neg h3, if_neg hle2, List.append_assoc, h4]
          · simp only [List.length_append]
            split_ifs <;> omega
          · simp only
            omega
      · rw [if_neg hle] at hread
        have hgt : ¬ l.r.data.length ≤ l.n := by omega
        have htt : (l.r.data.take m).take l.n = l.r.data.take l.n := by
          rw [List.take_take]; congr 1; omega
        simp [readAllLoop, hread, hgt, htt]

/-- The bounded read of a body: it always ends; a body of at most `limit`
bytes is returned whole without error, a longer one is cut to `limit` bytes
and reported as `MaxBytesError`. -/
theorem ReadAll_MaxBytesReader (grow : Nat → Nat) (body : Body) (limit : Nat) :
    ReadAll grow (MaxBytesReader.new body limit) =
      some (if body.data.length ≤ limit then (body.data, none)
            else (body.data.take limit, some (ReadErr.MaxBytesError limit))) := by
  have h := readAllLoop_spec grow (body.data.length + 1) (MaxBytesReader.new body limit) [] 512
    rfl (by simp) (by simp [MaxBytesReader.new])
  simpa [ReadAll, MaxBytesReader.new] using h

/-! ## The webhook -/

/-- C1: when the body was read successfully and the decode of the event
envelope fails, the webhook logs the error and answers 400: the run is the
envelope decode, the log line and `WriteHeader(400)`; it decodes no payload,
invokes no type handler and writes no 200. -/
theorem webhook_malformed_envelope (lib : Lib) (r : Request) (payload : Bytes) (err : String)
    (hread : ReadAll lib.grow (MaxBytesReader.new r.Body 65536) = some (payload, none))
    (hdec : lib.UnmarshalEvent payload = Except.error err) :
    webhook lib r =
        { calls := [Call.UnmarshalEvent payload,
                    Call.slogError "error unmarshaling event" err,
                    Call.WriteHeader StatusBadRequest],
          exit := Exit.returned } ∧
      (webhook lib r).status = some 400 ∧
      (∀ c ∈ (webhook lib r).calls, c.isPayloadDecode = false ∧ c.isTypeHandler = false) ∧
      (∀ c ∈ (webhook lib r).calls, c.status ≠ some 200) := by
  have hrun : webhook lib r =
      { calls := [Call.UnmarshalEvent payload,
                  Call.slogError "error unmarshaling event" err,
                  Call.WriteHeader StatusBadRequest],
        exit := Exit.returned } := by
    simp [webhook, hread, hdec, call, Run.ret]
  rw [hrun]
  simp [Run.status, Call.status, Call.isPayloadDecode, Call.isTypeHandler, StatusBadRequest]

/-- Witness of C1: the body "not json" is read whole and rejected by the
envelope decode. -/
theorem webhook_malformed_envelope_witness :
    webhook sampleLib (post "not json") =
        { calls := [Call.UnmarshalEvent (bytesOf "not json"),
                    Call.slogError "error unmarshaling event" "invalid character",
                    Call.WriteHeader StatusBadRequest],
          exit := Exit.returned } ∧
      (webhook sampleLib (post "not json")).status = some 400 ∧
      (∀ c ∈ (webhook sampleLib (post "not json")).calls,
        c.isPayloadDecode = false ∧ c.isTypeHandler = false) ∧
      (∀ c ∈ (webhook sampleLib (post "not json")).calls, c.status ≠ some 200) :=
  webhook_malformed_envelope sampleLib (post "not json") (bytesOf "not json") "invalid character"
    (by decide) rfl

/-- C2: when the envelope decodes, its type is payment_intent.succeeded
(respectively refund.created) and the decode of its raw payload into a
PaymentIntent (respectively a Refund) fails, the webhook answers 400 and
writes no 200. -/
theorem webhook_malformed_payload (lib : Lib) (r : Request) (payload : Bytes) (event : Event)
    (data : EventData) (err : String)
    (hread : ReadAll lib.grow (MaxBytesReader.new r.Body 65536) = some (payload, none))
    (hdec : lib.UnmarshalEvent payload = Except.ok event)
    (hdata : event.Data = some data)
    (hbad : (event.Type_ = EventTypePaymentIntentSucceeded ∧
              lib.UnmarshalPaymentIntent data.Raw = Except.error err) ∨
            (event.Type_ = EventTypeRefundCreated ∧
              lib.UnmarshalRefund data.Raw = Except.error err)) :
    (webhook lib r).status = some 400 ∧
      (webhook lib r).exit = Exit.returned ∧
      (∀ c ∈ (webhook lib r).calls, c.status ≠ some 200) ∧
      (∀ c ∈ (webhook lib r).calls, c.isTypeHandler = false) := by
  rcases hbad with ⟨htype, hpay⟩ | ⟨htype, hpay⟩
  · have hrun : webhook lib r =
        { calls := [Call.UnmarshalEvent payload, Call.UnmarshalPaymentIntent data.Raw,
                    Call.slogError "error unmarshaling event data" err,
                    Call.WriteHeader StatusBadRequest],
          exit := Exit.returned } := by
      simp [webhook, hread, hdec, hdata, htype, hpay, call, Run.ret]
    rw [hrun]
    simp [Run.status, Call.status, Call.isTypeHandler, StatusBadRequest]
  · have hne : ¬ EventTypeRefundCreated = EventTypePaymentIntentSucceeded := by decide
    have hrun : webhook lib r =
        { calls := [Call.UnmarshalEvent payload, Call.UnmarshalRefund data.Raw,
                    Call.slogError "error unmarshaling event data" err,
                    Call.WriteHeader StatusBadRequest],
          exit := Exit.returned } := by
      simp [webhook, hread, hdec, hdata, htype, hne, hpay, call, Run.ret]
    rw [hrun]
    simp [Run.status, Call.status, Call.isTypeHandler, StatusBadRequest]

/-- Witness of C2: a succeeded payment intent whose object does not have the
shape of a PaymentIntent. -/
theorem webhook_malformed_payload_witness :
    (webhook sampleLib (post bodyBadPayload)).status = some 400 ∧
      (webhook sampleLib (post bodyBadPayload)).exit = Exit.returned ∧
      (∀ c ∈ (webhook sampleLib (post bodyBadPayload)).calls, c.status ≠ some 200) ∧
      (∀ c ∈ (webhook sampleLib (post bodyBadPayload)).calls, c.isTypeHandler = false) :=
  webhook_malformed_payload sampleLib (post bodyBadPayload) (bytesOf bodyBadPayload)
    { Type_ := "payment_intent.succeeded", Data := some { Raw := bytesOf "\x7b\"id\":5\x7d" } }
    { Raw := bytesOf "\x7b\"id\":5\x7d" }
    "json: cannot unmarshal into Go value of type stripe.PaymentIntent"
    (by decide) rfl rfl (Or.inl ⟨by decide, rfl⟩)

/-- C3: when the envelope decodes and its type is neither
payment_intent.succeeded nor refund.created, the webhook logs a warning and
answers 200: the run is the envelope decode, the warning and
`WriteHeader(200)`, with no payload decode and no type handler; the event data
plays no part, the run is the same whatever data the envelope carries. -/
theorem webhook_unknown_type (lib : Lib) (r : Request) (payload : Bytes) (event : Event)
    (hread : ReadAll lib.grow (MaxBytesReader.new r.Body 65536) = some (payload, none))
    (hdec : lib.UnmarshalEvent payload = Except.ok event)
    (h1 : event.Type_ ≠ EventTypePaymentIntentSucceeded)
    (h2 : event.Type_ ≠ EventTypeRefundCreated) :
    webhook lib r =
        { calls := [Call.UnmarshalEvent payload,
                    Call.slogWarn "Unhandled event type" "event_type" event.Type_,
                    Call.WriteHeader StatusOK],
          exit := Exit.returned } ∧
      (webhook lib r).status = some 200 ∧
      (∀ c ∈ (webhook lib r).calls, c.isPayloadDecode = false ∧ c.isTypeHandler = false) ∧
      (∀ data : Option EventData,
        webhook { lib with UnmarshalEvent := fun _ => Except.ok { event with Data := data } } r =
          webhook lib r) := by
  have key : ∀ lib' : Lib, lib'.grow = lib.grow →
      (∃ d, lib'.UnmarshalEvent payload = Except.ok { event with Data := d }) →
      webhook lib' r =
        { calls := [Call.UnmarshalEvent payload,
                    Call.slogWarn "Unhandled event type" "event_type" event.Type_,
                    Call.WriteHeader StatusOK],
          exit := Exit.returned } := by
    intro lib' hg hd
    obtain ⟨d, hd⟩ := hd
    simp [webhook, hg, hread, hd, h1, h2, call, Run.ret]
  have hrun := key lib rfl ⟨event.Data, by rw [hdec]⟩
  refine ⟨hrun, ?_, ?_, ?_⟩
  · rw [hrun]; simp [Run.status, Call.status, StatusOK]
  · rw [hrun]; simp [Call.isPayloadDecode, Call.isTypeHandler]
  · intro data
    rw [hrun]
    exact key _ rfl ⟨data, rfl⟩

/-- Witness of C3: an event of type some.unknown.type. -/
theorem webhook_unknown_type_witness :
    webhook sampleLib (post bodyUnknown) =
        { calls := [Call.UnmarshalEvent (bytesOf bodyUnknown),
                    Call.slogWarn "Unhandled event type" "event_type" "some.unknown.type",
                    Call.WriteHeader StatusOK],
          exit := Exit.returned } ∧
      (webhook sampleLib (post bodyUnknown)).status = some 200 :=
  have h := webhook_unknown_type sampleLib (post bodyUnknown) (bytesOf bodyUnknown)
    { Type_ := "some.unknown.type", Data := some { Raw := bytesOf "\x7b\x7d" } }
    (by decide) rfl (by decide) (by decide)
  ⟨h.1, h.2.1⟩

/-- C4, the claim as stated fails: a well-formed payment_intent.succeeded event
is answered 200, but the run invokes no handler of that tag, so not exactly
one. -/
theorem webhook_handler_once_counterexample :
    (webhook sampleLib (post bodyPaymentIntent)).handlerCalls EventTypePaymentIntentSucceeded = 0 ∧
    ¬ ((webhook sampleLib (post bodyPaymentIntent)).status = some 200 ∧
        (webhook sampleLib (post bodyPaymentIntent)).handlerCalls EventTypePaymentIntentSucceeded = 1 ∧
        (webhook sampleLib (post bodyPaymentIntent)).handlerCalls EventTypeRefundCreated = 0) := by
  decide

/-- C4 as amended: when the envelope decodes, its type is
payment_intent.succeeded (respectively refund.created) and its raw payload
decodes into a PaymentIntent (respectively a Refund), the webhook answers 200
after decoding the payload exactly once, into the shape of that tag and not of
the other; it invokes no handler of any tag. -/
theorem webhook_recognized_ack (lib : Lib) (r : Request) (payload : Bytes) (event : Event)
    (data : EventData)
    (hread : ReadAll lib.grow (MaxBytesReader.new r.Body 65536) = some (payload, none))
    (hdec : lib.UnmarshalEvent payload = Except.ok event)
    (hdata : event.Data = some data)
    (hgood : (event.Type_ = EventTypePaymentIntentSucceeded ∧
               ∃ p, lib.UnmarshalPaymentIntent data.Raw = Except.ok p) ∨
             (event.Type_ = EventTypeRefundCreated ∧
               ∃ p, lib.UnmarshalRefund data.Raw = Except.ok p)) :
    webhook lib r =
        { calls := [Call.UnmarshalEvent payload,
                    if event.Type_ = EventTypePaymentIntentSucceeded
                      then Call.UnmarshalPaymentIntent data.Raw
                      else Call.UnmarshalRefund data.Raw,
                    Call.WriteHeader StatusOK],
          exit := Exit.returned } ∧
      (webhook lib r).status = some 200 ∧
      ((webhook lib r).calls.filter Call.isPayloadDecode).length = 1 ∧
      (∀ tag, (webhook lib r).handlerCalls tag = 0) := by
  have hrun : webhook lib r =
      { calls := [Call.UnmarshalEvent payload,
                  if event.Type_ = EventTypePaymentIntentSucceeded
                    then Call.UnmarshalPaymentIntent data.Raw
                    else Call.UnmarshalRefund data.Raw,
                  Call.WriteHeader StatusOK],
        exit := Exit.returned } := by
    rcases hgood with ⟨htype, p, hpay⟩ | ⟨htype, p, hpay⟩
    · simp [webhook, hread, hdec, hdata, htype, hpay, call, Run.ret]
    · have hne : ¬ EventTypeRefundCreated = EventTypePaymentIntentSucceeded := by decide
      simp [webhook, hread, hdec, hdata, htype, hne, hpay, call, Run.ret]
  rw [hrun]
  refine ⟨rfl, ?_, ?_, ?_⟩
  · split_ifs <;> simp [Run.status, Call.status, StatusOK]
  · split_ifs <;> simp [Call.isPayloadDecode]
  · intro tag
    split_ifs <;> simp [Run.handlerCalls]

/-- Witness of C4 as amended: a well-formed refund.created event. -/
theorem webhook_recognized_ack_witness :
    webhook sampleLib (post bodyRefund) =
        { calls := [Call.UnmarshalEvent (bytesOf bodyRefund),
                    Call.UnmarshalRefund (bytesOf "\x7b\"id\":\"re_1\"\x7d"),
                    Call.WriteHeader StatusOK],
          exit := Exit.returned } ∧
      (webhook sampleLib (post bodyRefund)).status = some 200 :=
  have h := webhook_recognized_ack sampleLib (post bodyRefund) (bytesOf bodyRefund)
    { Type_ := "refund.created", Data := some { Raw := bytesOf "\x7b\"id\":\"re_1\"\x7d" } }
    { Raw := bytesOf "\x7b\"id\":\"re_1\"\x7d" }
    (by decide) rfl rfl (Or.inr ⟨by decide, ⟨{ ID := "re_1" }, rfl⟩⟩)
  ⟨h.1, h.2.1⟩

/-- C5: the limit of the webhook body is 65536 bytes.  A body of at most
65536 bytes is read whole and without error, and the webhook goes on to the
envelope decode of exactly these bytes; a body of 65537 bytes or more fails
the read with a `MaxBytesError`, and the webhook logs it and answers 503
without any decode. -/
theorem webhook_body_limit (lib : Lib) (r : Request) :
    (r.Body.data.length ≤ 65536 →
      ReadAll lib.grow (MaxBytesReader.new r.Body 65536) = some (r.Body.data, none) ∧
      (webhook lib r).calls.head? = some (Call.UnmarshalEvent r.Body.data)) ∧
    (65537 ≤ r.Body.data.length →
      ReadAll lib.grow (MaxBytesReader.new r.Body 65536) =
        some (r.Body.data.take 65536, some (ReadErr.MaxBytesError 65536)) ∧
      webhook lib r =
        { calls := [Call.slogError "error reading request body" "http: request body too large",
                    Call.WriteHeader StatusServiceUnavailable],
          exit := Exit.returned } ∧
      (webhook lib r).status = some 503 ∧
      (∀ c ∈ (webhook lib r).calls, c.isDecode = false)) := by
  have hspec := ReadAll_MaxBytesReader lib.grow r.Body 65536
  constructor
  · intro hle
    rw [if_pos hle] at hspec
    refine ⟨hspec, ?_⟩
    simp only [webhook, hspec]
    cases lib.UnmarshalEvent r.Body.data <;> simp [call]
  · intro hgt
    rw [if_neg (by omega)] at hspec
    have hrun : webhook lib r =
        { calls := [Call.slogError "error reading request body" "http: request body too large",
                    Call.WriteHeader StatusServiceUnavailable],
          exit := Exit.returned } := by
      simp [webhook, hspec, call, Run.ret, ReadErr.Error]
    rw [hrun]
    refine ⟨hspec, rfl, ?_, ?_⟩
    · simp [Run.status, Call.status, StatusServiceUnavailable]
    · simp [Call.isDecode, Call.isPayloadDecode]

/-- Witness of C5: a body of exactly 65536 bytes is read whole and reaches the
envelope decode; a body of 65537 bytes is answered 503. -/
theorem webhook_body_limit_witness :
    (webhook sampleLib
        { PathValues := [], Query := [],
          Body := { data := List.replicate 65536 32, chunk := fun _ => 4095, eagerEOF := true } }).calls.head? =
      some (Call.UnmarshalEvent (List.replicate 65536 32)) ∧
    (webhook sampleLib
        { PathValues := [], Query := [],
          Body := { data := List.replicate 65537 32, chunk := fun _ => 4095, eagerEOF := true } }).status =
      some 503 :=
  ⟨((webhook_body_limit sampleLib
        { PathValues := [], Query := [],
          Body := { data := List.replicate 65536 32, chunk := fun _ => 4095, eagerEOF := true } }).1
      (List.length_replicate 65536 _).le).2,
   ((webhook_body_limit sampleLib
        { PathValues := [], Query := [],
          Body := { data := List.replicate 65537 32, chunk := fun _ => 4095, eagerEOF := true } }).2
      (List.length_replicate 65537 _).ge).2.2.1⟩

/-- C6, the code at the failing input: an envelope that decodes with the type
payment_intent.succeeded or refund.created and without data makes the webhook
panic on `event.Data.Raw`, right after the envelope decode; the run does not
return and no status is written. -/
theorem webhook_nil_data_panics (lib : Lib) (r : Request) (payload : Bytes) (event : Event)
    (hread : ReadAll lib.grow (MaxBytesReader.new r.Body 65536) = some (payload, none))
    (hdec : lib.UnmarshalEvent payload = Except.ok event)
    (hdata : event.Data = none)
    (htype : event.Type_ = EventTypePaymentIntentSucceeded ∨
             event.Type_ = EventTypeRefundCreated) :
    webhook lib r = { calls := [Call.UnmarshalEvent payload], exit := Exit.panicked } ∧
      (webhook lib r).status = none := by
  have hrun : webhook lib r = { calls := [Call.UnmarshalEvent payload], exit := Exit.panicked } := by
    rcases htype with htype | htype
    · simp [webhook, hread, hdec, hdata, htype, call, Run.panic]
    · have hne : ¬ EventTypeRefundCreated = EventTypePaymentIntentSucceeded := by decide
      simp [webhook, hread, hdec, hdata, htype, hne, call, Run.panic]
  rw [hrun]
  exact ⟨rfl, by simp [Run.status, Call.status]⟩

/-- Witness of C6: the body with a type and no "data" member. -/
theorem webhook_nil_data_panics_witness :
    webhook sampleLib (post bodyNoData) =
        { calls := [Call.UnmarshalEvent (bytesOf bodyNoData)], exit := Exit.panicked } ∧
      (webhook sampleLib (post bodyNoData)).status = none :=
  webhook_nil_data_panics sampleLib (post bodyNoData) (bytesOf bodyNoData)
    { Type_ := "payment_intent.succeeded", Data := none }
    (by decide) rfl rfl (Or.inl (by decide))

/-- The webhook ends on every request: it returns, unless the envelope decodes
with a recognized type and without data, where it panics. -/
theorem webhook_exit (lib : Lib) (r : Request) :
    (webhook lib r).exit ≠ Exit.diverged ∧
      ((webhook lib r).exit = Exit.panicked ↔
        ∃ event, r.Body.data.length ≤ 65536 ∧
          lib.UnmarshalEvent r.Body.data = Except.ok event ∧ event.Data = none ∧
          (event.Type_ = EventTypePaymentIntentSucceeded ∨
            event.Type_ = EventTypeRefundCreated)) := by
  have hspec := ReadAll_MaxBytesReader lib.grow r.Body 65536
  by_cases hle : r.Body.data.length ≤ 65536
  · rw [if_pos hle] at hspec
    rcases hdec : lib.UnmarshalEvent r.Body.data with err | event
    · simp [webhook, hspec, hdec, call, Run.ret, hle]
    · by_cases h1 : event.Type_ = EventTypePaymentIntentSucceeded
      · rcases hd : event.Data with _ | data
        · simp [webhook, hspec, hdec, call, Run.panic, hle, h1, hd]
        · rcases hp : lib.UnmarshalPaymentIntent data.Raw with e | p <;>
            simp [webhook, hspec, hdec, call, Run.ret, hle, h1, hd, hp]
      · by_cases h2 : event.Type_ = EventTypeRefundCreated
        · have hne : ¬ EventTypeRefundCreated = EventTypePaymentIntentSucceeded := by decide
          rcases hd : event.Data with _ | data
          · simp [webhook, hspec, hdec, call, Run.panic, hle, h2, hne, hd]
          · rcases hp : lib.UnmarshalRefund data.Raw with e | p <;>
              simp [webhook, hspec, hdec, call, Run.ret, hle, h2, hne, hd, hp]
        · simp [webhook, hspec, hdec, call, Run.ret, hle, h1, h2]
  · rw [if_neg hle] at hspec
    simp [webhook, hspec, call, Run.ret, hle]

/-! ## The lookups -/

/-- C7, the claim as stated fails: when the session lookup fails, the response
of /success has status 200, not 500, and it changes with the error text of the
provider. -/
theorem success_error_counterexample :
    (success (sessionGetFails "No such checkout.session: cs_404") (getSuccess "cs_404")).status
        = some 200 ∧
      ¬ ((success (sessionGetFails "No such checkout.session: cs_404") (getSuccess "cs_404")).status
        = some StatusInternalServerError) ∧
      (success (sessionGetFails "No such checkout.session: cs_404") (getSuccess "cs_404")).response ≠
        (success (sessionGetFails "Invalid API Key provided") (getSuccess "cs_404")).response := by
  decide

/-- C7 as amended: when the session lookup fails, /success looks the session up
by the id of the query string, logs the error and writes the inline message
"Error retrieving session information: " followed by the error text of the
provider; that message is its only write to the response, so it sets no
Content-Type and does not encode the session. -/
theorem success_lookup_error (lib : Lib) (r : Request) (s : Option CheckoutSession) (err : String)
    (hget : lib.sessionGet (r.QueryGet "session_id") = (s, some err)) :
    success lib r =
        { calls := [Call.sessionGet (r.QueryGet "session_id"),
                    Call.slogError "session.Get" err,
                    Call.Fprintf ("Error retrieving session information: " ++ err)],
          exit := Exit.returned } ∧
      (success lib r).response = [Call.Fprintf ("Error retrieving session information: " ++ err)] ∧
      (∀ v, Call.Encode v ∉ (success lib r).calls) := by
  have hrun : success lib r =
      { calls := [Call.sessionGet (r.QueryGet "session_id"),
                  Call.slogError "session.Get" err,
                  Call.Fprintf ("Error retrieving session information: " ++ err)],
        exit := Exit.returned } := by
    simp [success, hget, call, Run.ret]
  rw [hrun]
  simp [Run.response, Call.isWrite]

/-- Witness of C7 as amended: the lookup of an unknown session id. -/
theorem success_lookup_error_witness :
    (success sampleLib (getSuccess "cs_404")).response =
      [Call.Fprintf "Error retrieving session information: No such checkout.session: cs_404"] :=
  (success_lookup_error sampleLib (getSuccess "cs_404") (some { ID := "", URL := "" })
    "No such checkout.session: cs_404" (by decide)).2.1

/-- C8: /payment_intent/{id} calls the provider lookup once, with the id of the
path; when the lookup fails the response is `http.Error` with the fixed message
"error retrieving payment intent" and status 500, whatever the error; when it
succeeds the response is the Content-Type application/json and the JSON
encoding of the returned payment intent; no run has both. -/
theorem paymentIntent_lookup (lib : Lib) (r : Request) :
    (paymentIntent lib r).calls.head? = some (Call.paymentintentGet (r.PathValue "id")) ∧
      (∀ id, Call.paymentintentGet id ∈ (paymentIntent lib r).calls ↔ id = r.PathValue "id") ∧
      (∀ p err, lib.paymentintentGet (r.PathValue "id") = (p, some err) →
        (paymentIntent lib r).status = some 500 ∧
        (paymentIntent lib r).response =
          [Call.Error "error retrieving payment intent" StatusInternalServerError]) ∧
      (∀ p, lib.paymentintentGet (r.PathValue "id") = (p, none) →
        (paymentIntent lib r).status = some 200 ∧
        (paymentIntent lib r).response =
          [Call.HeaderSet "Content-Type" "application/json",
           Call.Encode (Encoded.paymentIntent p)]) ∧
      ¬ ((∃ m c, Call.Error m c ∈ (paymentIntent lib r).calls) ∧
         (∃ v, Call.Encode v ∈ (paymentIntent lib r).calls)) := by
  rcases hget : lib.paymentintentGet (r.PathValue "id") with ⟨p, _ | err⟩
  · have hrun : paymentIntent lib r =
        { calls := [Call.paymentintentGet (r.PathValue "id"),
                    Call.HeaderSet "Content-Type" "application/json",
                    Call.Encode (Encoded.paymentIntent p)],
          exit := Exit.returned } := by
      simp [paymentIntent, hget, call, Run.ret]
    rw [hrun]
    simp [Run.status, Run.response, Call.status, Call.isWrite, StatusOK]
  · have hrun : paymentIntent lib r =
        { calls := [Call.paymentintentGet (r.PathValue "id"),
                    Call.slogError "paymentintent.Get" err,
                    Call.Error "error retrieving payment intent" StatusInternalServerError],
          exit := Exit.returned } := by
      simp [paymentIntent, hget, call, Run.ret]
    rw [hrun]
    simp [Run.status, Run.response, Call.status, Call.isWrite, StatusInternalServerError]

/-- Witness of C8: the lookup of an unknown id is answered 500 with the fixed
message, the lookup of pi_1 with its JSON encoding. -/
theorem paymentIntent_lookup_witness :
    ((paymentIntent sampleLib (getPaymentIntent "pi_404")).status = some 500 ∧
      (paymentIntent sampleLib (getPaymentIntent "pi_404")).response =
        [Call.Error "error retrieving payment intent" StatusInternalServerError]) ∧
    ((paymentIntent sampleLib (getPaymentIntent "pi_1")).status = some 200 ∧
      (paymentIntent sampleLib (getPaymentIntent "pi_1")).response =
        [Call.HeaderSet "Content-Type" "application/json",
         Call.Encode (Encoded.paymentIntent (some { ID := "pi_1" }))]) :=
  ⟨(paymentIntent_lookup sampleLib (getPaymentIntent "pi_404")).2.2.1
      (some { ID := "" }) "No such payment_intent: pi_404" (by decide),
   (paymentIntent_lookup sampleLib (getPaymentIntent "pi_1")).2.2.2.1
      (some { ID := "pi_1" }) (by decide)⟩

/-! ## The checkout -/

/-- C9, the claim as stated fails: the provider call succeeds and returns a
session, the JSON encoding of that session fails, and the response is
`http.Error` with status 500, not a redirect. -/
theorem checkout_redirect_counterexample :
    marshalFails.sessionNew (checkoutParams marshalFails) =
        (some { ID := "cs_1", URL := "https://checkout.stripe.com/c/pay/cs_1" }, none) ∧
      (checkout marshalFails (post "")).response =
        [Call.Error "error marshalling JSON" StatusInternalServerError] ∧
      ¬ ((checkout marshalFails (post "")).status = some StatusSeeOther) := by
  decide

/-- C9 as amended: every run of /checkout starts with the provider call
`session.New` on parameters with exactly one line item, of the price PRICE_ID
of the environment and quantity 1, mode "payment", the success and cancel URLs
on `addr`, the metadata key "some_unique_id" on the session and on the payment
intent, and the client reference "MY-CUSTOMER-ID"; when the provider call
succeeds and the JSON encoding of the returned session succeeds, the response
is the redirect to the URL of that session with status 303. -/
theorem checkout_params_and_redirect (lib : Lib) (r : Request) :
    (checkout lib r).calls.head? =
        some (Call.sessionNew
          { LineItems := [{ Price := some (lib.Getenv "PRICE_ID"), Quantity := some 1 }],
            Mode := some "payment",
            SuccessURL := some ("http://" ++ addr ++ "/success?session_id={CHECKOUT_SESSION_ID}"),
            CancelURL := some ("http://" ++ addr ++ "/cancel"),
            Metadata := [("some_unique_id", "some_unique_value")],
            PaymentIntentData := some { Metadata := [("some_unique_id", "some_unique_value")] },
            ClientReferenceID := some "MY-CUSTOMER-ID" }) ∧
      (∀ p, Call.sessionNew p ∈ (checkout lib r).calls → p = checkoutParams lib) ∧
      (∀ s b, lib.sessionNew (checkoutParams lib) = (some s, none) →
        lib.MarshalIndent (some s) = Except.ok b →
        (checkout lib r).status = some 303 ∧
        (checkout lib r).response = [Call.Redirect s.URL StatusSeeOther]) := by
  refine ⟨rfl, ?_, ?_⟩
  · intro p hp
    rcases hnew : lib.sessionNew (checkoutParams lib) with ⟨s, err⟩
    rcases hm : lib.MarshalIndent s with m | b
    · cases err <;> simp [checkout, hnew, hm, call, Run.ret] at hp <;> exact hp
    · cases err <;> cases s <;>
        simp [checkout, hnew, hm, call, Run.ret, Run.panic] at hp <;> exact hp
  · intro s b hnew hm
    have hrun : checkout lib r =
        { calls := [Call.sessionNew (checkoutParams lib), Call.MarshalIndent (some s),
                    Call.slogInfo "checkout session" "session" b,
                    Call.Redirect s.URL StatusSeeOther],
          exit := Exit.returned } := by
      simp [checkout, hnew, hm, call, Run.ret]
    rw [hrun]
    simp [Run.status, Run.response, Call.status, Call.isWrite, StatusSeeOther]

/-- Witness of C9 as amended: the provider returns the session cs_1 and the
response is the redirect to its URL. -/
theorem checkout_params_and_redirect_witness :
    (checkout sampleLib (post "")).status = some 303 ∧
      (checkout sampleLib (post "")).response =
        [Call.Redirect "https://checkout.stripe.com/c/pay/cs_1" StatusSeeOther] :=
  (checkout_params_and_redirect sampleLib (post "")).2.2
    { ID := "cs_1", URL := "https://checkout.stripe.com/c/pay/cs_1" }
    "\x7b\"id\": \"cs_1\", \"url\": \"https://checkout.stripe.com/c/pay/cs_1\"\x7d"
    (by decide) rfl

/-- C10: when the provider call `session.New` returns an error together with
the session it allocated, /checkout does not stop there: it logs the error,
goes on to encode the returned session and, unless the encoding fails, issues
the redirect to the URL of that session with status 303 and returns.  When the
encoding fails the response is `http.Error` with status 500, and that is the
only way the response gets a status of 500 or more. -/
theorem checkout_provider_error (lib : Lib) (r : Request) (sess : CheckoutSession)
    (err : String) (hnew : lib.sessionNew (checkoutParams lib) = (some sess, some err)) :
    (checkout lib r).exit = Exit.returned ∧
      (checkout lib r).calls.take 3 =
        [Call.sessionNew (checkoutParams lib), Call.logPrintf ("session.New: " ++ err),
         Call.MarshalIndent (some sess)] ∧
      (∀ b, lib.MarshalIndent (some sess) = Except.ok b →
        checkout lib r =
          { calls := [Call.sessionNew (checkoutParams lib),
                      Call.logPrintf ("session.New: " ++ err), Call.MarshalIndent (some sess),
                      Call.slogInfo "checkout session" "session" b,
                      Call.Redirect sess.URL StatusSeeOther],
            exit := Exit.returned } ∧
        (checkout lib r).status = some 303 ∧
        (checkout lib r).response = [Call.Redirect sess.URL StatusSeeOther]) ∧
      (∀ m, lib.MarshalIndent (some sess) = Except.error m →
        (checkout lib r).status = some 500 ∧
        (checkout lib r).response =
          [Call.Error "error marshalling JSON" StatusInternalServerError]) ∧
      (∀ c, (checkout lib r).status = some c → 500 ≤ c →
        ∃ m, lib.MarshalIndent (some sess) = Except.error m) := by
  rcases hm : lib.MarshalIndent (some sess) with m | b
  · have hrun : checkout lib r =
        { calls := [Call.sessionNew (checkoutParams lib),
                    Call.logPrintf ("session.New: " ++ err), Call.MarshalIndent (some sess),
                    Call.Error "error marshalling JSON" StatusInternalServerError],
          exit := Exit.returned } := by
      simp [checkout, hnew, hm, call, Run.ret]
    rw [hrun]
    simp [Run.status, Run.response, Call.status, Call.isWrite, StatusInternalServerError]
  · have hrun : checkout lib r =
        { calls := [Call.sessionNew (checkoutParams lib),
                    Call.logPrintf ("session.New: " ++ err), Call.MarshalIndent (some sess),
                    Call.slogInfo "checkout session" "session" b,
                    Call.Redirect sess.URL StatusSeeOther],
          exit := Exit.returned } := by
      simp [checkout, hnew, hm, call, Run.ret]
    rw [hrun]
    simp [Run.status, Run.response, Call.status, Call.isWrite, StatusSeeOther]

/-- Witness of C10: the provider call fails with an invalid key and returns
its empty session; the run logs the error, encodes the session and answers
with the redirect to the empty URL and status 303. -/
theorem checkout_provider_error_witness :
    sessionNewFailsEmpty.sessionNew (checkoutParams sessionNewFailsEmpty) =
        (some { ID := "", URL := "" }, some "Invalid API Key provided") ∧
      checkout sessionNewFailsEmpty (post "") =
        { calls := [Call.sessionNew (checkoutParams sessionNewFailsEmpty),
                    Call.logPrintf "session.New: Invalid API Key provided",
                    Call.MarshalIndent (some { ID := "", URL := "" }),
                    Call.slogInfo "checkout session" "session"
                      "\x7b\"id\": \"\", \"url\": \"\"\x7d",
                    Call.Redirect "" StatusSeeOther],
          exit := Exit.returned } ∧
      (checkout sessionNewFailsEmpty (post "")).status = some 303 ∧
      (checkout sessionNewFailsEmpty (post "")).response = [Call.Redirect "" StatusSeeOther] :=
  ⟨by decide,
   (checkout_provider_error sessionNewFailsEmpty (post "") { ID := "", URL := "" }
      "Invalid API Key provided" (by decide)).2.2.1
      "\x7b\"id\": \"\", \"url\": \"\"\x7d" rfl⟩

end StripeCheckout
